import Mathlib

/-!
Shallow embedding of the MediRepo record store (src/app.py): the SQLite
schema (patients, doctors, vitals, prescriptions tables) and the data-access
operations triggered by the UI (patient registration and login, profile
update, vital recording and retrieval, prescription recording and retrieval,
doctor registration).

Python/SQLite text values are modelled as `List Char`; Python `str.upper`,
`str.lower`, `str.strip` and SQLite `upper()`/`lower()` are modelled by the
ASCII character maps `Char.toUpper`/`Char.toLower` and whitespace trimming,
which agree with both on the ASCII fragment the application manipulates.
SQLite `REAL` columns are modelled as `Rat`, `INTEGER` columns as `Int`,
`NULL`able columns as `Option`. A table is a list of rows in rowid
(insertion) order; `INSERT` appends.
-/

/-- Text values of the Python/SQLite layer, as lists of characters. -/
abbrev Str := List Char

/-- Model of Python `str.upper` and SQLite `upper()` (ASCII fragment). -/
def pyUpper (s : Str) : Str := s.map Char.toUpper

/-- Model of Python `str.lower` and SQLite `lower()` (ASCII fragment). -/
def pyLower (s : Str) : Str := s.map Char.toLower

/-- Model of Python `str.strip()`: remove leading and trailing whitespace. -/
def pyStrip (s : Str) : Str :=
  ((s.dropWhile Char.isWhitespace).reverse.dropWhile Char.isWhitespace).reverse

/-- Byte-order comparison on text, as used by SQLite `ORDER BY` on TEXT
columns with the default BINARY collation. -/
def strLe : Str → Str → Bool
  | [], _ => true
  | _ :: _, [] => false
  | a :: as, b :: bs =>
    if a.toNat < b.toNat then true
    else if b.toNat < a.toNat then false
    else strLe as bs

/-- Row of the `patients` table (src/app.py lines 18-31). -/
structure Patient where
  unique_id : Str
  first_name : Str
  last_name : Str
  email : Str
  phone : Str
  dob : Option Str
  location : Option Str
  height_cm : Option Rat
  diet_pref : Option Str
  gender : Option Str
deriving DecidableEq, Repr

/-- Row of the `doctors` table (src/app.py lines 34-43). -/
structure Doctor where
  first_name : Str
  last_name : Str
  email : Str
  phone : Str
  speciality : Str
deriving DecidableEq, Repr

/-- Row of the `vitals` table (src/app.py lines 46-58); the AUTOINCREMENT
`vital_id` surrogate key is the list position. -/
structure Vital where
  patient_id : Str
  record_date : Str
  weight_kg : Option Rat
  bp_systolic : Option Int
  bp_diastolic : Option Int
  heart_rate : Option Int
  sugar_level : Option Rat
deriving DecidableEq, Repr

/-- Row of the `prescriptions` table (src/app.py lines 61-73); the
AUTOINCREMENT `rx_id` surrogate key is the list position. -/
structure Prescription where
  patient_id : Str
  doctor_name : Str
  visit_date : Str
  summary : Str
  medicine : Str
  frequency : Str
  timing : Str
deriving DecidableEq, Repr

/-- The four relations owned by the record store. -/
structure Store where
  patients : List Patient
  doctors : List Doctor
  vitals : List Vital
  prescriptions : List Prescription
deriving DecidableEq, Repr

/-- The empty store produced by `init_db` on a fresh database file. -/
def Store.init : Store := ⟨[], [], [], []⟩

/-- Outcome of patient or doctor registration. -/
inductive RegOutcome where
  | ok (uid : Str)
  | validationError
  | duplicateError
deriving DecidableEq, Repr

/-- Patient registration (src/app.py lines 292-303): mandatory-field check
(Python truthiness: the empty string is falsy), token generation
`str(uuid.uuid4())[:8].upper()` modelled by uppercasing the oracle input
`gen` (the first eight characters of the fresh UUID), then `INSERT`; a
colliding PRIMARY KEY (`unique_id`) or UNIQUE column (`email`, `phone`)
raises `sqlite3.IntegrityError`, caught as the single generic
"account already exists" failure. -/
def register_patient (ps : List Patient) (gen fname lname email phone : Str) :
    RegOutcome × List Patient :=
  if fname = [] ∨ email = [] ∨ phone = [] then (RegOutcome.validationError, ps)
  else if ∃ p ∈ ps, p.unique_id = pyUpper gen ∨ p.email = email ∨ p.phone = phone then
    (RegOutcome.duplicateError, ps)
  else
    (RegOutcome.ok (pyUpper gen),
     ps ++ [{ unique_id := pyUpper gen, first_name := fname, last_name := lname,
              email := email, phone := phone, dob := none, location := none,
              height_cm := none, diet_pref := none, gender := none }])

/-- Rows matched by the patient-login query (src/app.py line 312):
`SELECT * FROM patients WHERE lower(first_name)=? AND upper(unique_id)=?`
with parameters `fname.lower().strip()` and `unique_id.upper().strip()`. -/
def login_matches (ps : List Patient) (fname uid : Str) : List Patient :=
  ps.filter (fun p =>
    decide (pyLower p.first_name = pyStrip (pyLower fname)) &&
    decide (pyUpper p.unique_id = pyStrip (pyUpper uid)))

/-- Patient login (src/app.py lines 311-325): succeeds iff the query
returns at least one row, and the session identity is `user_data[0]`,
the first matching row; `none` models the generic AuthError path. -/
def patient_login (ps : List Patient) (fname uid : Str) : Option Patient :=
  (login_matches ps fname uid).head?

/-- Patient profile update (src/app.py lines 144-145):
`UPDATE patients SET height_cm=?, dob=?, gender=?, diet_pref=?, location=?
WHERE unique_id=?`, a full overwrite of the five mutable columns on every
row whose `unique_id` matches exactly. -/
def update_profile (ps : List Patient) (uid : Str) (height : Rat)
    (dob gender diet location : Str) : List Patient :=
  ps.map (fun p =>
    if p.unique_id = uid then
      { p with height_cm := some height, dob := some dob, gender := some gender,
               diet_pref := some diet, location := some location }
    else p)

/-- Vital row built by the vitals form submission (src/app.py lines 268-274):
each measurement is stored as `x if x > 0 else None`. -/
def mk_vital (pid rdate : Str) (w : Rat) (bps bpd hr : Int) (sg : Rat) : Vital :=
  { patient_id := pid, record_date := rdate,
    weight_kg := if w > 0 then some w else none,
    bp_systolic := if bps > 0 then some bps else none,
    bp_diastolic := if bpd > 0 then some bpd else none,
    heart_rate := if hr > 0 then some hr else none,
    sugar_level := if sg > 0 then some sg else none }

/-- Vital recording (src/app.py lines 267-274): a single `INSERT` of the
normalized row; always an append, never an upsert. -/
def record_vital (vs : List Vital) (pid rdate : Str) (w : Rat)
    (bps bpd hr : Int) (sg : Rat) : List Vital :=
  vs ++ [mk_vital pid rdate w bps bpd hr sg]

/-- Projection of a vitals row onto the columns selected by
`get_patient_vitals` (src/app.py line 99). -/
structure VitalRow where
  record_date : Str
  weight_kg : Option Rat
  bp_systolic : Option Int
  bp_diastolic : Option Int
  heart_rate : Option Int
  sugar_level : Option Rat
deriving DecidableEq, Repr

/-- Column projection for the vitals SELECT. -/
def Vital.toRow (v : Vital) : VitalRow :=
  ⟨v.record_date, v.weight_kg, v.bp_systolic, v.bp_diastolic, v.heart_rate,
   v.sugar_level⟩

/-- Ordering used by `ORDER BY record_date ASC` on the vitals query. -/
def vitalRowLe (a b : VitalRow) : Prop := strLe a.record_date b.record_date = true

instance : DecidableRel vitalRowLe := fun a b =>
  inferInstanceAs (Decidable (strLe a.record_date b.record_date = true))

/-- Vital retrieval (src/app.py lines 97-104):
`SELECT record_date, weight_kg, bp_systolic, bp_diastolic, heart_rate,
sugar_level FROM vitals WHERE patient_id = ? ORDER BY record_date ASC`;
an empty result is returned as an empty sequence, not an error. -/
def get_patient_vitals (pid : Str) (vs : List Vital) : List VitalRow :=
  List.insertionSort vitalRowLe
    ((vs.filter (fun v => decide (v.patient_id = pid))).map Vital.toRow)

/-- Projection of a prescriptions row onto the columns selected by
`get_patient_prescriptions` (src/app.py line 108). -/
structure RxRow where
  visit_date : Str
  doctor_name : Str
  summary : Str
  medicine : Str
  frequency : Str
  timing : Str
deriving DecidableEq, Repr

/-- Column projection for the prescriptions SELECT. -/
def Prescription.toRow (r : Prescription) : RxRow :=
  ⟨r.visit_date, r.doctor_name, r.summary, r.medicine, r.frequency, r.timing⟩

/-- Ordering used by `ORDER BY visit_date DESC` on the prescriptions query. -/
def rxRowDescLe (a b : RxRow) : Prop := strLe b.visit_date a.visit_date = true

instance : DecidableRel rxRowDescLe := fun a b =>
  inferInstanceAs (Decidable (strLe b.visit_date a.visit_date = true))

/-- Prescription retrieval (src/app.py lines 106-112):
`SELECT visit_date, doctor_name, summary, medicine, frequency, timing FROM
prescriptions WHERE patient_id = ? ORDER BY visit_date DESC`. -/
def get_patient_prescriptions (pid : Str) (rxs : List Prescription) : List RxRow :=
  List.insertionSort rxRowDescLe
    ((rxs.filter (fun r => decide (r.patient_id = pid))).map Prescription.toRow)

/-- One medicine entry of the prescription form. -/
structure Medicine where
  name : Str
  freq : Str
  timing : Str
deriving DecidableEq, Repr

/-- Outcome of the prescription-save submission. -/
inductive RxOutcome where
  | success
  | validationError
  | notFoundError
  | emptySubmission
deriving DecidableEq, Repr

/-- Prescription rows inserted by the save loop (src/app.py lines 384-388):
one row per medicine whose name is non-blank after `strip()`; the stored
`medicine` column keeps the un-stripped name, and every row shares the
normalized patient id, doctor display name, visit date and summary. -/
def rx_rows (pidNorm docName vdate summary : Str) (meds : List Medicine) :
    List Prescription :=
  (meds.filter (fun m => decide (pyStrip m.name ≠ []))).map (fun m =>
    { patient_id := pidNorm, doctor_name := docName, visit_date := vdate,
      summary := summary, medicine := m.name, frequency := m.freq,
      timing := m.timing })

/-- Prescription recording (src/app.py lines 375-398): reject an empty
patient-id field; check patient existence first via
`SELECT 1 FROM patients WHERE upper(unique_id)=?` with parameter
`patient_id.upper().strip()`; then insert one row per non-blank medicine
name; if no row was inserted the save is reported as the distinct
"No medicines were entered" outcome rather than success. -/
def record_prescription (s : Store) (docName pid vdate summary : Str)
    (meds : List Medicine) : RxOutcome × Store :=
  if pid = [] then (RxOutcome.validationError, s)
  else if ∃ p ∈ s.patients, pyUpper p.unique_id = pyStrip (pyUpper pid) then
    if rx_rows (pyStrip (pyUpper pid)) docName vdate summary meds = [] then
      (RxOutcome.emptySubmission, s)
    else
      (RxOutcome.success,
       { s with prescriptions :=
           s.prescriptions ++ rx_rows (pyStrip (pyUpper pid)) docName vdate summary meds })
  else (RxOutcome.notFoundError, s)

/-- Doctor registration (src/app.py lines 413-422): all five fields
mandatory, generic duplicate failure on an email or phone collision. -/
def register_doctor (ds : List Doctor) (fname lname email phone spec : Str) :
    RegOutcome × List Doctor :=
  if fname = [] ∨ lname = [] ∨ email = [] ∨ phone = [] ∨ spec = [] then
    (RegOutcome.validationError, ds)
  else if ∃ d ∈ ds, d.email = email ∨ d.phone = phone then
    (RegOutcome.duplicateError, ds)
  else
    (RegOutcome.ok [],
     ds ++ [{ first_name := fname, last_name := lname, email := email,
              phone := phone, speciality := spec }])

/-- Store state plus the per-session patient identity
(`st.session_state.user_info` for role Patient), which is set only by a
successful login, updated by a profile save, and cleared by logout. -/
structure AppState where
  store : Store
  session : Option Patient
deriving DecidableEq, Repr

/-- The operations the UI can trigger against the store. -/
inductive Op where
  | opRegisterPatient (gen fname lname email phone : Str)
  | opLoginPatient (fname uid : Str)
  | opLogout
  | opUpdateProfile (height : Rat) (dob gender diet location : Str)
  | opRecordVital (rdate : Str) (w : Rat) (bps bpd hr : Int) (sg : Rat)
  | opRecordPrescription (docName pid vdate summary : Str) (meds : List Medicine)
  | opRegisterDoctor (fname lname email phone spec : Str)

/-- One step of the application: how each UI submission updates the store
and the session identity (src/app.py `patient_journey`, `patient_dashboard`,
`doctor_portal`, `doctor_journey`). Vital recording uses the authenticated
session patient's own `unique_id` (src/app.py line 269); a profile save also
refreshes the session copy of the mutable fields (lines 147-151). -/
def applyOp (st : AppState) : Op → AppState
  | Op.opRegisterPatient gen f l e ph =>
    { st with store :=
        { st.store with patients := (register_patient st.store.patients gen f l e ph).2 } }
  | Op.opLoginPatient f uid =>
    match patient_login st.store.patients f uid with
    | some p => { st with session := some p }
    | none => st
  | Op.opLogout => { st with session := none }
  | Op.opUpdateProfile h dob g d loc =>
    match st.session with
    | some u =>
      { store := { st.store with
          patients := update_profile st.store.patients u.unique_id h dob g d loc },
        session := some { u with height_cm := some h, dob := some dob,
                                 gender := some g, diet_pref := some d,
                                 location := some loc } }
    | none => st
  | Op.opRecordVital rdate w bps bpd hr sg =>
    match st.session with
    | some u =>
      { st with store :=
          { st.store with vitals :=
              record_vital st.store.vitals u.unique_id rdate w bps bpd hr sg } }
    | none => st
  | Op.opRecordPrescription dn pid vd sm meds =>
    { st with store := (record_prescription st.store dn pid vd sm meds).2 }
  | Op.opRegisterDoctor f l e ph sp =>
    { st with store :=
        { st.store with doctors := (register_doctor st.store.doctors f l e ph sp).2 } }

/-- States reachable through the store's API from an empty database. -/
inductive Reachable : AppState → Prop
  | init : Reachable ⟨Store.init, none⟩
  | step (st : AppState) (op : Op) : Reachable st → Reachable (applyOp st op)

/-- Every stored patient id is already in its canonical uppercase form. -/
def canonicalIds (ps : List Patient) : Prop :=
  ∀ p ∈ ps, pyUpper p.unique_id = p.unique_id

/-- Referential integrity: every vitals row and every prescriptions row
references the `unique_id` of some existing patient row. -/
def refIntegrity (s : Store) : Prop :=
  (∀ v ∈ s.vitals, ∃ p ∈ s.patients, v.patient_id = p.unique_id) ∧
  (∀ r ∈ s.prescriptions, ∃ p ∈ s.patients, r.patient_id = p.unique_id)

/-- The session identity, when present, is keyed by an existing patient. -/
def sessionOk (st : AppState) : Prop :=
  ∀ u, st.session = some u → ∃ p ∈ st.store.patients, u.unique_id = p.unique_id

/-- The inductive invariant of the application state. -/
def storeInv (st : AppState) : Prop :=
  canonicalIds st.store.patients ∧ refIntegrity st.store ∧ sessionOk st

/-! ## Helper lemmas -/

/-- Text comparison is total. -/
theorem strLe_total : ∀ x y : Str, strLe x y = true ∨ strLe y x = true
  | [], _ => Or.inl rfl
  | _ :: _, [] => Or.inr rfl
  | a :: as, b :: bs => by
    simp only [strLe]
    rcases Nat.lt_trichotomy a.toNat b.toNat with h | h | h
    · left; rw [if_pos h]
    · rw [if_neg (by omega), if_neg (by omega), if_neg (by omega), if_neg (by omega)]
      exact strLe_total as bs
    · right; rw [if_pos h]

/-- Text comparison is transitive. -/
theorem strLe_trans : ∀ x y z : Str,
    strLe x y = true → strLe y z = true → strLe x z = true
  | [], _, _, _, _ => rfl
  | _ :: _, [], _, h, _ => by simp [strLe] at h
  | _ :: _, _ :: _, [], _, h => by simp [strLe] at h
  | a :: as, b :: bs, c :: cs, h1, h2 => by
    simp only [strLe] at h1 h2 ⊢
    rcases Nat.lt_trichotomy a.toNat b.toNat with hab | hab | hab
    · rcases Nat.lt_trichotomy b.toNat c.toNat with hbc | hbc | hbc
      · rw [if_pos (Nat.lt_trans hab hbc)]
      · rw [if_pos (hbc ▸ hab)]
      · rw [if_neg (by omega), if_pos hbc] at h2; simp at h2
    · rcases Nat.lt_trichotomy b.toNat c.toNat with hbc | hbc | hbc
      · rw [if_pos (by omega)]
      · rw [if_neg (by omega), if_neg (by omega)]
        rw [if_neg (by omega), if_neg (by omega)] at h1
        rw [if_neg (by omega), if_neg (by omega)] at h2
        exact strLe_trans as bs cs h1 h2
      · rw [if_neg (by omega), if_pos hbc] at h2; simp at h2
    · rw [if_neg (by omega), if_pos hab] at h1; simp at h1

/-- Decoding a valid scalar value gives back that value. -/
theorem toNat_ofNat_valid (n : Nat) (h : n.isValidChar) : (Char.ofNat n).toNat = n := by
  rw [Char.ofNat, dif_pos h]
  simp [Char.ofNatAux, Char.toNat, UInt32.toNat, BitVec.toNat_ofNatLt]

/-- Uppercasing a character twice is the same as uppercasing it once. -/
theorem charToUpper_idem (c : Char) : c.toUpper.toUpper = c.toUpper := by
  unfold Char.toUpper
  by_cases h : c.toNat ≥ 97 ∧ c.toNat ≤ 122
  · rw [if_pos h]
    have hv : Nat.isValidChar (c.toNat - 32) := Or.inl (by omega)
    have ht : (Char.ofNat (c.toNat - 32)).toNat = c.toNat - 32 := toNat_ofNat_valid _ hv
    rw [if_neg (by omega)]
  · rw [if_neg h, if_neg h]

/-- Uppercasing text is idempotent: uppercased ids are in canonical form. -/
theorem pyUpper_idem (s : Str) : pyUpper (pyUpper s) = pyUpper s := by
  simp only [pyUpper, List.map_map]
  exact List.map_congr_left (fun c _ => charToUpper_idem c)

/-! ## Claim theorems -/

/-- C9: patient profile update is a full overwrite of exactly the mutable
fields (height_cm, dob, gender, diet_pref, location) keyed by `unique_id`,
and is idempotent: applying the same update twice yields the same stored
patients table as applying it once; the immutable columns (unique_id,
first_name, last_name, email, phone) of every row are untouched. -/
theorem profile_update_full_overwrite_idempotent (ps : List Patient)
    (uid : Str) (ht : Rat) (dob g d loc : Str) :
    update_profile (update_profile ps uid ht dob g d loc) uid ht dob g d loc =
      update_profile ps uid ht dob g d loc ∧
    (∀ i : Nat, (update_profile ps uid ht dob g d loc)[i]? =
      ps[i]?.map (fun p =>
        if p.unique_id = uid then
          { p with height_cm := some ht, dob := some dob, gender := some g,
                   diet_pref := some d, location := some loc }
        else p)) ∧
    (update_profile ps uid ht dob g d loc).map
        (fun p => (p.unique_id, p.first_name, p.last_name, p.email, p.phone)) =
      ps.map (fun p => (p.unique_id, p.first_name, p.last_name, p.email, p.phone)) := by
  refine ⟨?_, ?_, ?_⟩
  · simp only [update_profile, List.map_map]
    refine List.map_congr_left (fun p _ => ?_)
    by_cases hp : p.unique_id = uid <;> simp [hp]
  · intro i
    simp [update_profile]
  · simp only [update_profile, List.map_map]
    refine List.map_congr_left (fun p _ => ?_)
    by_cases hp : p.unique_id = uid <;> simp [hp]

/-- C8: registering a patient whose mandatory fields are present, whose
email and phone are previously unused, and whose freshly generated token
does not collide with an existing id, always succeeds, appends exactly one
row, and returns a unique_id not equal to any existing patient's. -/
theorem register_fresh_contact_succeeds (ps : List Patient)
    (gen f l e ph : Str) (hf : f ≠ []) (he : e ≠ []) (hp : ph ≠ [])
    (hgen : ∀ p ∈ ps, p.unique_id ≠ pyUpper gen)
    (hemail : ∀ p ∈ ps, p.email ≠ e) (hphone : ∀ p ∈ ps, p.phone ≠ ph) :
    register_patient ps gen f l e ph =
      (RegOutcome.ok (pyUpper gen),
       ps ++ [{ unique_id := pyUpper gen, first_name := f, last_name := l,
                email := e, phone := ph, dob := none, location := none,
                height_cm := none, diet_pref := none, gender := none }]) ∧
    ∀ p ∈ ps, pyUpper gen ≠ p.unique_id := by
  constructor
  · unfold register_patient
    rw [if_neg (by tauto), if_neg]
    rintro ⟨p, hmem, hcase⟩
    rcases hcase with h | h | h
    · exact hgen p hmem h
    · exact hemail p hmem h
    · exact hphone p hmem h
  · exact fun p hmem => fun hc => hgen p hmem hc.symm

/-- C4: with an existing patient holding the same email or phone, a second
registration fails with the single generic duplicate failure and leaves the
patients table unchanged; a register-then-register pair on the same email
grows the table by exactly one row, not two. -/
theorem duplicate_registration_rejected (ps : List Patient)
    (gen f l e ph gen2 f2 l2 ph2 : Str)
    (hf : f ≠ []) (he : e ≠ []) (hp : ph ≠ [])
    (hf2 : f2 ≠ []) (hp2 : ph2 ≠ []) :
    ((∃ p ∈ ps, p.email = e ∨ p.phone = ph) →
        register_patient ps gen f l e ph = (RegOutcome.duplicateError, ps)) ∧
    ((∀ p ∈ ps, p.unique_id ≠ pyUpper gen ∧ p.email ≠ e ∧ p.phone ≠ ph) →
        (register_patient ps gen f l e ph).1 = RegOutcome.ok (pyUpper gen) ∧
        register_patient (register_patient ps gen f l e ph).2 gen2 f2 l2 e ph2 =
          (RegOutcome.duplicateError, (register_patient ps gen f l e ph).2) ∧
        (register_patient ps gen f l e ph).2.length = ps.length + 1) := by
  constructor
  · rintro ⟨p, hmem, hcase⟩
    unfold register_patient
    rw [if_neg (by tauto), if_pos ⟨p, hmem, Or.inr hcase⟩]
  · intro hfresh
    have hstep : register_patient ps gen f l e ph =
        (RegOutcome.ok (pyUpper gen),
         ps ++ [{ unique_id := pyUpper gen, first_name := f, last_name := l,
                  email := e, phone := ph, dob := none, location := none,
                  height_cm := none, diet_pref := none, gender := none }]) := by
      unfold register_patient
      rw [if_neg (by tauto), if_neg]
      rintro ⟨p, hmem, hcase⟩
      rcases hfresh p hmem with ⟨h1, h2, h3⟩
      rcases hcase with h | h | h
      · exact h1 h
      · exact h2 h
      · exact h3 h
    rw [hstep]
    refine ⟨rfl, ?_, by simp⟩
    unfold register_patient
    rw [if_neg (by tauto), if_pos]
    exact ⟨_, List.mem_append_right ps (List.mem_singleton_self _),
           Or.inr (Or.inl rfl)⟩

/-- C5: recording a prescription for a patient id that matches no existing
patient under the case-insensitive comparison fails with the not-found
outcome, the existence check precedes any insert, and the store is
unchanged (zero prescription rows persisted). -/
theorem rx_unknown_patient_not_found (s : Store) (dn pid vd sm : Str)
    (meds : List Medicine) (hpid : pid ≠ [])
    (habs : ∀ p ∈ s.patients, pyUpper p.unique_id ≠ pyStrip (pyUpper pid)) :
    record_prescription s dn pid vd sm meds = (RxOutcome.notFoundError, s) := by
  unfold record_prescription
  rw [if_neg hpid, if_neg]
  rintro ⟨p, hmem, hup⟩
  exact habs p hmem hup

/-- C3: when the referenced patient exists, the save persists exactly one
prescription row per medicine entry whose name is non-blank after trimming,
every persisted row carries the same normalized patient_id, doctor_name,
visit_date and summary, an all-blank submission persists zero rows and
reports the distinct empty-submission outcome, and a submission with at
least one non-blank medicine name reports success. -/
theorem rx_rows_per_nonblank_medicine (s : Store) (dn pid vd sm : Str)
    (meds : List Medicine) (hpid : pid ≠ [])
    (hex : ∃ p ∈ s.patients, pyUpper p.unique_id = pyStrip (pyUpper pid)) :
    ((record_prescription s dn pid vd sm meds).2.prescriptions =
        s.prescriptions ++ rx_rows (pyStrip (pyUpper pid)) dn vd sm meds) ∧
    (rx_rows (pyStrip (pyUpper pid)) dn vd sm meds).length =
        (meds.filter (fun m => decide (pyStrip m.name ≠ []))).length ∧
    (∀ r ∈ rx_rows (pyStrip (pyUpper pid)) dn vd sm meds,
        r.patient_id = pyStrip (pyUpper pid) ∧ r.doctor_name = dn ∧
        r.visit_date = vd ∧ r.summary = sm) ∧
    ((∀ m ∈ meds, pyStrip m.name = []) →
        (record_prescription s dn pid vd sm meds).1 = RxOutcome.emptySubmission ∧
        (record_prescription s dn pid vd sm meds).2 = s) ∧
    ((∃ m ∈ meds, pyStrip m.name ≠ []) →
        (record_prescription s dn pid vd sm meds).1 = RxOutcome.success) ∧
    RxOutcome.emptySubmission ≠ RxOutcome.success := by
  refine ⟨?_, by simp [rx_rows], fun r hr => ?_, fun hblank => ?_, fun hnb => ?_, by simp⟩
  · unfold record_prescription
    rw [if_neg hpid, if_pos hex]
    by_cases hrows : rx_rows (pyStrip (pyUpper pid)) dn vd sm meds = []
    · rw [if_pos hrows, hrows]
      simp
    · rw [if_neg hrows]
  · simp only [rx_rows, List.mem_map, List.mem_filter] at hr
    rcases hr with ⟨m, _, rfl⟩
    exact ⟨rfl, rfl, rfl, rfl⟩
  · have hrows : rx_rows (pyStrip (pyUpper pid)) dn vd sm meds = [] := by
      simp only [rx_rows, List.map_eq_nil_iff, List.filter_eq_nil_iff]
      intro m hm
      simp [hblank m hm]
    unfold record_prescription
    rw [if_neg hpid, if_pos hex, if_pos hrows]
    exact ⟨rfl, rfl⟩
  · have hrows : rx_rows (pyStrip (pyUpper pid)) dn vd sm meds ≠ [] := by
      rcases hnb with ⟨m, hm, hname⟩
      simp only [rx_rows, ne_eq, List.map_eq_nil_iff, List.filter_eq_nil_iff]
      intro hall
      exact hall m hm (by simpa using hname)
    unfold record_prescription
    rw [if_neg hpid, if_pos hex, if_neg hrows]

/-- C6: vital retrieval returns exactly the rows of the requested patient
(a permutation of the filtered table, projected to the selected columns),
sorted in non-decreasing record_date order, and returns the empty sequence
rather than an error for a patient with zero recorded vitals. -/
theorem vitals_query_ordered_complete (pid : Str) (vs : List Vital) :
    List.Sorted vitalRowLe (get_patient_vitals pid vs) ∧
    List.Perm (get_patient_vitals pid vs)
      ((vs.filter (fun v => decide (v.patient_id = pid))).map Vital.toRow) ∧
    ((∀ v ∈ vs, v.patient_id ≠ pid) → get_patient_vitals pid vs = []) := by
  haveI : IsTotal VitalRow vitalRowLe := ⟨fun a b => strLe_total _ _⟩
  haveI : IsTrans VitalRow vitalRowLe := ⟨fun a b c => strLe_trans _ _ _⟩
  refine ⟨List.sorted_insertionSort _ _, List.perm_insertionSort _ _, fun hnone => ?_⟩
  have hnil : vs.filter (fun v => decide (v.patient_id = pid)) = [] := by
    simp only [List.filter_eq_nil_iff]
    intro v hv
    simp [hnone v hv]
  unfold get_patient_vitals
  rw [hnil]
  rfl

/-- C1: each measurement submitted as exactly zero is stored as null and
each strictly positive measurement is stored unchanged; consequently a
vital recorded with weight zero is retrieved with a null weight and
contributes nothing to the has-weight-data predicate over the retrieved
rows. -/
theorem vital_zero_stored_null (vs : List Vital) (pid rdate : Str)
    (w : Rat) (bps bpd hr : Int) (sg : Rat) :
    ((w = 0 → (mk_vital pid rdate w bps bpd hr sg).weight_kg = none) ∧
     (0 < w → (mk_vital pid rdate w bps bpd hr sg).weight_kg = some w)) ∧
    ((bps = 0 → (mk_vital pid rdate w bps bpd hr sg).bp_systolic = none) ∧
     (0 < bps → (mk_vital pid rdate w bps bpd hr sg).bp_systolic = some bps)) ∧
    ((bpd = 0 → (mk_vital pid rdate w bps bpd hr sg).bp_diastolic = none) ∧
     (0 < bpd → (mk_vital pid rdate w bps bpd hr sg).bp_diastolic = some bpd)) ∧
    ((hr = 0 → (mk_vital pid rdate w bps bpd hr sg).heart_rate = none) ∧
     (0 < hr → (mk_vital pid rdate w bps bpd hr sg).heart_rate = some hr)) ∧
    ((sg = 0 → (mk_vital pid rdate w bps bpd hr sg).sugar_level = none) ∧
     (0 < sg → (mk_vital pid rdate w bps bpd hr sg).sugar_level = some sg)) ∧
    (w = 0 →
      (mk_vital pid rdate w bps bpd hr sg).toRow ∈
        get_patient_vitals pid (record_vital vs pid rdate w bps bpd hr sg) ∧
      (mk_vital pid rdate w bps bpd hr sg).toRow.weight_kg = none ∧
      List.Perm
        ((get_patient_vitals pid (record_vital vs pid rdate w bps bpd hr sg)).filter
          (fun r => r.weight_kg.isSome))
        ((get_patient_vitals pid vs).filter (fun r => r.weight_kg.isSome))) := by
  refine ⟨⟨fun h => by simp [mk_vital, h], fun h => by simp [mk_vital, h]⟩,
          ⟨fun h => by simp [mk_vital, h], fun h => by simp [mk_vital, h]⟩,
          ⟨fun h => by simp [mk_vital, h], fun h => by simp [mk_vital, h]⟩,
          ⟨fun h => by simp [mk_vital, h], fun h => by simp [mk_vital, h]⟩,
          ⟨fun h => by simp [mk_vital, h], fun h => by simp [mk_vital, h]⟩,
          fun hw => ?_⟩
  subst hw
  have hrow : (mk_vital pid rdate 0 bps bpd hr sg).toRow.weight_kg = none := by
    simp [mk_vital, Vital.toRow]
  have hfa : (record_vital vs pid rdate 0 bps bpd hr sg).filter
      (fun v => decide (v.patient_id = pid)) =
      vs.filter (fun v => decide (v.patient_id = pid)) ++
        [mk_vital pid rdate 0 bps bpd hr sg] := by
    unfold record_vital
    rw [List.filter_append]
    simp [mk_vital]
  refine ⟨?_, hrow, ?_⟩
  · unfold get_patient_vitals
    rw [List.mem_insertionSort]
    rw [hfa, List.map_append]
    exact List.mem_append_right _ (by simp)
  · have hperm1 : List.Perm
        (get_patient_vitals pid (record_vital vs pid rdate 0 bps bpd hr sg))
        (((vs.filter (fun v => decide (v.patient_id = pid))).map Vital.toRow) ++
          [(mk_vital pid rdate 0 bps bpd hr sg).toRow]) := by
      unfold get_patient_vitals
      rw [hfa, List.map_append]
      simpa using List.perm_insertionSort vitalRowLe _
    have hperm2 := hperm1.filter (fun r => r.weight_kg.isSome)
    rw [List.filter_append] at hperm2
    have hsingle : ([(mk_vital pid rdate 0 bps bpd hr sg).toRow].filter
        (fun r => r.weight_kg.isSome)) = [] := by
      simp [List.filter, hrow]
    rw [hsingle, List.append_nil] at hperm2
    refine hperm2.trans ?_
    exact (List.perm_insertionSort vitalRowLe _).symm.filter _

/-- C2 (counterexample): on a patients table holding two rows that differ
only in the case of their unique_id (and share a case-insensitive first
name), the login query matches two rows, yet the code succeeds with the
first row instead of failing; so "succeeds iff exactly one match" is false
at this concrete state and input. -/
theorem patient_login_multi_match_cex :
    (login_matches
      [{ unique_id := "ab12cd34".data, first_name := "asha".data,
         last_name := [], email := "a@x.in".data, phone := "111".data,
         dob := none, location := none, height_cm := none,
         diet_pref := none, gender := none },
       { unique_id := "AB12CD34".data, first_name := "Asha".data,
         last_name := [], email := "b@x.in".data, phone := "222".data,
         dob := none, location := none, height_cm := none,
         diet_pref := none, gender := none }]
      "asha".data "ab12cd34".data).length = 2 ∧
    (patient_login
      [{ unique_id := "ab12cd34".data, first_name := "asha".data,
         last_name := [], email := "a@x.in".data, phone := "111".data,
         dob := none, location := none, height_cm := none,
         diet_pref := none, gender := none },
       { unique_id := "AB12CD34".data, first_name := "Asha".data,
         last_name := [], email := "b@x.in".data, phone := "222".data,
         dob := none, location := none, height_cm := none,
         diet_pref := none, gender := none }]
      "asha".data "ab12cd34".data).isSome = true ∧
    ¬ ((patient_login
      [{ unique_id := "ab12cd34".data, first_name := "asha".data,
         last_name := [], email := "a@x.in".data, phone := "111".data,
         dob := none, location := none, height_cm := none,
         diet_pref := none, gender := none },
       { unique_id := "AB12CD34".data, first_name := "Asha".data,
         last_name := [], email := "b@x.in".data, phone := "222".data,
         dob := none, location := none, height_cm := none,
         diet_pref := none, gender := none }]
      "asha".data "ab12cd34".data).isSome = true ↔
      (login_matches
      [{ unique_id := "ab12cd34".data, first_name := "asha".data,
         last_name := [], email := "a@x.in".data, phone := "111".data,
         dob := none, location := none, height_cm := none,
         diet_pref := none, gender := none },
       { unique_id := "AB12CD34".data, first_name := "Asha".data,
         last_name := [], email := "b@x.in".data, phone := "222".data,
         dob := none, location := none, height_cm := none,
         diet_pref := none, gender := none }]
      "asha".data "ab12cd34".data).length = 1) := by
  decide

/-- The head of a filtered list is the first element of the original list
satisfying the filter: the list splits at that element and nothing before
it passes the filter. -/
theorem filter_head_first {α : Type} (f : α → Bool) :
    ∀ (ps : List α) (p : α), (ps.filter f).head? = some p →
      f p = true ∧ ∃ pre post, ps = pre ++ p :: post ∧ ∀ q ∈ pre, f q = false
  | [], p, h => by simp at h
  | a :: as, p, h => by
    by_cases hfa : f a
    · rw [List.filter_cons_of_pos hfa] at h
      have hap : a = p := by simpa using h
      subst hap
      exact ⟨hfa, [], as, rfl, by simp⟩
    · rw [List.filter_cons_of_neg hfa] at h
      obtain ⟨hf, pre, post, heq, hpre⟩ := filter_head_first f as p h
      refine ⟨hf, a :: pre, post, by rw [List.cons_append, heq], fun q hq => ?_⟩
      rcases List.mem_cons.mp hq with hqa | hq2
      · subst hqa
        exact Bool.eq_false_iff.mpr hfa
      · exact hpre q hq2

/-- C2 (amended): patient login succeeds if and only if at least one
patient row matches case-insensitively on both first_name and unique_id;
the session identity it returns is the first matching row in table order:
the table splits at the returned row with no earlier row matching (hence
the unique matching row whenever exactly one row matches), and it fails
with the single generic failure exactly when zero rows match. -/
theorem patient_login_first_match (ps : List Patient) (fname uid : Str) :
    (patient_login ps fname uid = none ↔ login_matches ps fname uid = []) ∧
    (∀ p, patient_login ps fname uid = some p →
        p ∈ ps ∧ pyLower p.first_name = pyStrip (pyLower fname) ∧
        pyUpper p.unique_id = pyStrip (pyUpper uid) ∧
        ∃ pre post, ps = pre ++ p :: post ∧
          ∀ q ∈ pre, ¬ (pyLower q.first_name = pyStrip (pyLower fname) ∧
                        pyUpper q.unique_id = pyStrip (pyUpper uid))) ∧
    (∀ p, login_matches ps fname uid = [p] →
        patient_login ps fname uid = some p) := by
  refine ⟨List.head?_eq_none_iff, fun p h => ?_, fun p h => ?_⟩
  · have hp : p ∈ login_matches ps fname uid :=
      List.mem_of_mem_head? (Option.mem_def.mpr h)
    rw [login_matches, List.mem_filter] at hp
    have hmatch := hp.2
    simp only [Bool.and_eq_true, decide_eq_true_eq] at hmatch
    have h' : (ps.filter
        (fun q => decide (pyLower q.first_name = pyStrip (pyLower fname)) &&
                  decide (pyUpper q.unique_id = pyStrip (pyUpper uid)))).head? =
        some p := h
    obtain ⟨hf, pre, post, heq, hpre⟩ := filter_head_first
      (fun q => decide (pyLower q.first_name = pyStrip (pyLower fname)) &&
                decide (pyUpper q.unique_id = pyStrip (pyUpper uid))) ps p h'
    refine ⟨hp.1, hmatch.1, hmatch.2, pre, post, heq, fun q hq hcon => ?_⟩
    have htrue : (decide (pyLower q.first_name = pyStrip (pyLower fname)) &&
        decide (pyUpper q.unique_id = pyStrip (pyUpper uid))) = true := by
      simp [hcon.1, hcon.2]
    exact Bool.noConfusion (htrue.symm.trans (hpre q hq))
  · unfold patient_login
    rw [h]
    rfl


/-- A successful login returns a row of the patients table. -/
theorem login_result_mem {ps : List Patient} {f u : Str} {p : Patient}
    (h : patient_login ps f u = some p) : p ∈ ps := by
  have hp : p ∈ login_matches ps f u :=
    List.mem_of_mem_head? (Option.mem_def.mpr h)
  exact (List.mem_filter.mp hp).1

/-- Every row built by the prescription save loop carries the normalized
patient id. -/
theorem rx_rows_pid {pidN dn vd sm : Str} {meds : List Medicine}
    {r : Prescription} (h : r ∈ rx_rows pidN dn vd sm meds) :
    r.patient_id = pidN := by
  simp only [rx_rows, List.mem_map, List.mem_filter] at h
  rcases h with ⟨m, _, rfl⟩
  rfl

/-- Patient registration either leaves the table unchanged or appends
exactly the one new row with an uppercased generated id. -/
theorem register_patient_sub (ps : List Patient) (gen f l e ph : Str) :
    (register_patient ps gen f l e ph).2 = ps ∨
    (register_patient ps gen f l e ph).2 =
      ps ++ [{ unique_id := pyUpper gen, first_name := f, last_name := l,
               email := e, phone := ph, dob := none, location := none,
               height_cm := none, diet_pref := none, gender := none }] := by
  unfold register_patient
  split
  · exact Or.inl rfl
  · split
    · exact Or.inl rfl
    · exact Or.inr rfl

/-- Prescription recording either leaves the store unchanged or, when the
referenced patient exists, appends the built rows to the prescriptions
table. -/
theorem record_prescription_sub (s : Store) (dn pid vd sm : Str)
    (meds : List Medicine) :
    (record_prescription s dn pid vd sm meds).2 = s ∨
    ((∃ p ∈ s.patients, pyUpper p.unique_id = pyStrip (pyUpper pid)) ∧
     (record_prescription s dn pid vd sm meds).2 =
       { s with prescriptions :=
           s.prescriptions ++ rx_rows (pyStrip (pyUpper pid)) dn vd sm meds }) := by
  unfold record_prescription
  by_cases h1 : pid = []
  · rw [if_pos h1]
    exact Or.inl rfl
  · rw [if_neg h1]
    by_cases h2 : ∃ p ∈ s.patients, pyUpper p.unique_id = pyStrip (pyUpper pid)
    · rw [if_pos h2]
      by_cases h3 : rx_rows (pyStrip (pyUpper pid)) dn vd sm meds = []
      · rw [if_pos h3]
        exact Or.inl rfl
      · rw [if_neg h3]
        exact Or.inr ⟨h2, rfl⟩
    · rw [if_neg h2]
      exact Or.inl rfl

/-- Profile update leaves the column of patient ids unchanged. -/
theorem update_profile_ids (ps : List Patient) (uid : Str) (ht : Rat)
    (dob g d loc : Str) :
    (update_profile ps uid ht dob g d loc).map (fun p => p.unique_id) =
      ps.map (fun p => p.unique_id) := by
  simp only [update_profile, List.map_map]
  refine List.map_congr_left (fun p _ => ?_)
  by_cases hp : p.unique_id = uid <;> simp [hp]

/-- Canonical-form ids are preserved by any rewrite of the patients table
that keeps the id column. -/
theorem canonicalIds_of_map_eq {ps qs : List Patient}
    (h : qs.map (fun p => p.unique_id) = ps.map (fun p => p.unique_id))
    (hc : canonicalIds ps) : canonicalIds qs := by
  intro q hq
  have hmm : q.unique_id ∈ qs.map (fun p => p.unique_id) :=
    List.mem_map_of_mem _ hq
  rw [h] at hmm
  rcases List.mem_map.mp hmm with ⟨p, hp, he⟩
  exact he ▸ hc p hp

/-- References into the patients table survive any rewrite of the table
that keeps the id column. -/
theorem exists_uid_of_map_eq {ps qs : List Patient}
    (h : qs.map (fun p => p.unique_id) = ps.map (fun p => p.unique_id))
    {x : Str} (he : ∃ p ∈ ps, x = p.unique_id) : ∃ p ∈ qs, x = p.unique_id := by
  rcases he with ⟨p, hp, hx⟩
  have hmem : p.unique_id ∈ qs.map (fun p => p.unique_id) := by
    rw [h]
    exact List.mem_map_of_mem _ hp
  rcases List.mem_map.mp hmem with ⟨q, hq, hqe⟩
  exact ⟨q, hq, by rw [hx, ← hqe]⟩

/-- References into the patients table survive growing the table. -/
theorem exists_uid_mono {ps qs : List Patient} (hsub : ∀ p ∈ ps, p ∈ qs)
    {x : Str} (h : ∃ p ∈ ps, x = p.unique_id) : ∃ p ∈ qs, x = p.unique_id := by
  rcases h with ⟨p, hp, he⟩
  exact ⟨p, hsub p hp, he⟩

/-- The invariant holds in the initial, empty state. -/
theorem storeInv_init : storeInv ⟨Store.init, none⟩ := by
  refine ⟨fun p hp => ?_, ⟨fun v hv => ?_, fun r hr => ?_⟩, fun u hu => ?_⟩
  · simp [Store.init] at hp
  · simp [Store.init] at hv
  · simp [Store.init] at hr
  · simp at hu

/-- Every operation of the application preserves the invariant. -/
theorem storeInv_step (st : AppState) (op : Op) (h : storeInv st) :
    storeInv (applyOp st op) := by
  obtain ⟨hc, ⟨hv, hr⟩, hs⟩ := h
  cases op with
  | opRegisterPatient gen f l e ph =>
    rcases register_patient_sub st.store.patients gen f l e ph with heq | heq
    · simp only [applyOp, heq]
      exact ⟨hc, ⟨hv, hr⟩, hs⟩
    · simp only [applyOp, heq]
      refine ⟨fun p hp => ?_, ⟨fun v hvm => ?_, fun r hrm => ?_⟩, fun u hu => ?_⟩
      · rcases List.mem_append.mp hp with hmem | hmem
        · exact hc p hmem
        · have hpe := List.mem_singleton.mp hmem
          subst hpe
          exact pyUpper_idem gen
      · exact exists_uid_mono (fun p hp => List.mem_append_left _ hp) (hv v hvm)
      · exact exists_uid_mono (fun p hp => List.mem_append_left _ hp) (hr r hrm)
      · exact exists_uid_mono (fun p hp => List.mem_append_left _ hp) (hs u hu)
  | opLoginPatient f uid =>
    cases hlog : patient_login st.store.patients f uid with
    | none =>
      simp only [applyOp, hlog]
      exact ⟨hc, ⟨hv, hr⟩, hs⟩
    | some p =>
      simp only [applyOp, hlog]
      refine ⟨hc, ⟨hv, hr⟩, fun u hu => ?_⟩
      have hpu := Option.some.inj hu
      subst hpu
      exact ⟨p, login_result_mem hlog, rfl⟩
  | opLogout =>
    simp only [applyOp]
    exact ⟨hc, ⟨hv, hr⟩, fun u hu => Option.noConfusion hu⟩
  | opUpdateProfile ht dob g d loc =>
    cases hses : st.session with
    | none =>
      simp only [applyOp, hses]
      exact ⟨hc, ⟨hv, hr⟩, hs⟩
    | some u =>
      simp only [applyOp, hses]
      have hids := update_profile_ids st.store.patients u.unique_id ht dob g d loc
      refine ⟨canonicalIds_of_map_eq hids hc,
              ⟨fun v hvm => exists_uid_of_map_eq hids (hv v hvm),
               fun r hrm => exists_uid_of_map_eq hids (hr r hrm)⟩,
              fun u₀ hu₀ => ?_⟩
      have hpu := Option.some.inj hu₀
      subst hpu
      exact exists_uid_of_map_eq hids (hs u hses)
  | opRecordVital rdate w bps bpd hrate sg =>
    cases hses : st.session with
    | none =>
      simp only [applyOp, hses]
      exact ⟨hc, ⟨hv, hr⟩, hs⟩
    | some u =>
      simp only [applyOp, hses]
      refine ⟨hc, ⟨fun v hvm => ?_, hr⟩, fun u₀ hu₀ => ?_⟩
      · rcases List.mem_append.mp hvm with hmem | hmem
        · exact hv v hmem
        · have hve := List.mem_singleton.mp hmem
          subst hve
          exact hs u hses
      · have hpu := Option.some.inj hu₀
        subst hpu
        exact hs u hses
  | opRecordPrescription dn pid vd sm meds =>
    rcases record_prescription_sub st.store dn pid vd sm meds with heq | ⟨⟨p, hp, hup⟩, heq⟩
    · simp only [applyOp, heq]
      exact ⟨hc, ⟨hv, hr⟩, hs⟩
    · simp only [applyOp, heq]
      refine ⟨hc, ⟨hv, fun r hrm => ?_⟩, hs⟩
      rcases List.mem_append.mp hrm with hmem | hmem
      · exact hr r hmem
      · have hpidr := rx_rows_pid hmem
        refine ⟨p, hp, ?_⟩
        rw [hpidr, ← hup]
        exact hc p hp
  | opRegisterDoctor f l e ph sp =>
    simp only [applyOp]
    exact ⟨hc, ⟨hv, hr⟩, hs⟩

/-- The invariant holds in every reachable state. -/
theorem reachable_storeInv {st : AppState} (h : Reachable st) : storeInv st := by
  induction h with
  | init => exact storeInv_init
  | step st op _ ih => exact storeInv_step st op ih

/-- C7: referential integrity is an invariant of every state reachable
through the store's API from an empty store: every vitals row's and every
prescriptions row's patient_id equals the unique_id of some existing
patient row. -/
theorem referential_integrity_reachable (st : AppState) (h : Reachable st) :
    refIntegrity st.store :=
  (reachable_storeInv h).2.1

/-- C10: in every reachable state, every stored patient unique_id is fixed
by uppercasing (it was stored in canonical uppercase form at generation),
and consequently the uppercased, trimmed patient_id written into each
prescriptions row equals the referenced patient's stored unique_id
character for character, and the exact-match patient_id filters of vital
and prescription retrieval find each of that patient's rows. -/
theorem canonical_ids_exact_joins (st : AppState) (h : Reachable st) :
    (∀ p ∈ st.store.patients, pyUpper p.unique_id = p.unique_id) ∧
    (∀ r ∈ st.store.prescriptions, ∃ p ∈ st.store.patients,
        r.patient_id = p.unique_id ∧
        r.toRow ∈ get_patient_prescriptions p.unique_id st.store.prescriptions) ∧
    (∀ v ∈ st.store.vitals, ∃ p ∈ st.store.patients,
        v.patient_id = p.unique_id ∧
        v.toRow ∈ get_patient_vitals p.unique_id st.store.vitals) := by
  obtain ⟨hc, ⟨hv, hr⟩, _⟩ := reachable_storeInv h
  refine ⟨hc, fun r hrm => ?_, fun v hvm => ?_⟩
  · rcases hr r hrm with ⟨p, hp, he⟩
    refine ⟨p, hp, he, ?_⟩
    unfold get_patient_prescriptions
    rw [List.mem_insertionSort]
    exact List.mem_map_of_mem _ (List.mem_filter.mpr ⟨hrm, by simp [he]⟩)
  · rcases hv v hvm with ⟨p, hp, he⟩
    refine ⟨p, hp, he, ?_⟩
    unfold get_patient_vitals
    rw [List.mem_insertionSort]
    exact List.mem_map_of_mem _ (List.mem_filter.mpr ⟨hvm, by simp [he]⟩)

/-! ## Concrete witnesses -/

/-- C1 witness: a record submitted with weight 0, bp 120/80, heart rate 72
and sugar 0 stores nulls for the zero fields and the positive values
unchanged; the stored row is retrieved with a null weight and the
has-weight-data rows are unchanged by it. -/
theorem vital_zero_stored_null_witness :
    (mk_vital "AB12CD34".data "2024-01-02".data 0 120 80 72 0).weight_kg = none ∧
    (mk_vital "AB12CD34".data "2024-01-02".data 0 120 80 72 0).bp_systolic = some 120 ∧
    (mk_vital "AB12CD34".data "2024-01-02".data 0 120 80 72 0).bp_diastolic = some 80 ∧
    (mk_vital "AB12CD34".data "2024-01-02".data 0 120 80 72 0).heart_rate = some 72 ∧
    (mk_vital "AB12CD34".data "2024-01-02".data 0 120 80 72 0).sugar_level = none ∧
    (mk_vital "AB12CD34".data "2024-01-02".data 0 120 80 72 0).toRow ∈
      get_patient_vitals "AB12CD34".data
        (record_vital [] "AB12CD34".data "2024-01-02".data 0 120 80 72 0) ∧
    List.Perm
      ((get_patient_vitals "AB12CD34".data
          (record_vital [] "AB12CD34".data "2024-01-02".data 0 120 80 72 0)).filter
        (fun r => r.weight_kg.isSome))
      ((get_patient_vitals "AB12CD34".data ([] : List Vital)).filter
        (fun r => r.weight_kg.isSome)) := by
  have h := vital_zero_stored_null [] "AB12CD34".data "2024-01-02".data 0 120 80 72 0
  exact ⟨h.1.1 rfl, h.2.1.2 (by decide), h.2.2.1.2 (by decide),
         h.2.2.2.1.2 (by decide), h.2.2.2.2.1.1 rfl,
         (h.2.2.2.2.2 rfl).1, (h.2.2.2.2.2 rfl).2.2⟩

/-- C2 witness (amended claim): with exactly one matching row, login
returns exactly that row. -/
theorem patient_login_first_match_witness :
    patient_login
      [{ unique_id := "AB12CD34".data, first_name := "asha".data,
         last_name := [], email := "a@x.in".data, phone := "111".data,
         dob := none, location := none, height_cm := none,
         diet_pref := none, gender := none }] "Asha".data "ab12cd34".data =
      some { unique_id := "AB12CD34".data, first_name := "asha".data,
             last_name := [], email := "a@x.in".data, phone := "111".data,
             dob := none, location := none, height_cm := none,
             diet_pref := none, gender := none } :=
  (patient_login_first_match
    [{ unique_id := "AB12CD34".data, first_name := "asha".data,
       last_name := [], email := "a@x.in".data, phone := "111".data,
       dob := none, location := none, height_cm := none,
       diet_pref := none, gender := none }] "Asha".data "ab12cd34".data).2.2
    _ (by decide)

/-- C3 witness: a submission with one blank-named and one non-blank
medicine for an existing patient reports success and appends exactly the
rows built from the non-blank entries. -/
theorem rx_rows_per_nonblank_medicine_witness :
    (record_prescription
      { patients := [{ unique_id := "AB12CD34".data, first_name := "asha".data,
                       last_name := [], email := "a@x.in".data, phone := "111".data,
                       dob := none, location := none, height_cm := none,
                       diet_pref := none, gender := none }],
        doctors := [], vitals := [], prescriptions := [] }
      "Dr. Mohan".data "ab12cd34".data "2024-03-01".data "flu".data
      [{ name := " ".data, freq := "Once a day".data, timing := "After Breakfast".data },
       { name := "Aspirin".data, freq := "Twice a day".data, timing := "After Lunch".data }]).1 =
      RxOutcome.success ∧
    (record_prescription
      { patients := [{ unique_id := "AB12CD34".data, first_name := "asha".data,
                       last_name := [], email := "a@x.in".data, phone := "111".data,
                       dob := none, location := none, height_cm := none,
                       diet_pref := none, gender := none }],
        doctors := [], vitals := [], prescriptions := [] }
      "Dr. Mohan".data "ab12cd34".data "2024-03-01".data "flu".data
      [{ name := " ".data, freq := "Once a day".data, timing := "After Breakfast".data },
       { name := "Aspirin".data, freq := "Twice a day".data, timing := "After Lunch".data }]).2.prescriptions =
      rx_rows (pyStrip (pyUpper "ab12cd34".data)) "Dr. Mohan".data
        "2024-03-01".data "flu".data
        [{ name := " ".data, freq := "Once a day".data, timing := "After Breakfast".data },
         { name := "Aspirin".data, freq := "Twice a day".data, timing := "After Lunch".data }] := by
  have h := rx_rows_per_nonblank_medicine
    { patients := [{ unique_id := "AB12CD34".data, first_name := "asha".data,
                     last_name := [], email := "a@x.in".data, phone := "111".data,
                     dob := none, location := none, height_cm := none,
                     diet_pref := none, gender := none }],
      doctors := [], vitals := [], prescriptions := [] }
    "Dr. Mohan".data "ab12cd34".data "2024-03-01".data "flu".data
    [{ name := " ".data, freq := "Once a day".data, timing := "After Breakfast".data },
     { name := "Aspirin".data, freq := "Twice a day".data, timing := "After Lunch".data }]
    (by decide) (by decide)
  exact ⟨h.2.2.2.2.1 (by decide), h.1⟩

/-- C4 witness: registering twice with the same email grows the table from
zero to exactly one row; the second call fails with the generic duplicate
failure and leaves the table unchanged. -/
theorem duplicate_registration_rejected_witness :
    (register_patient [] "ab12cd34".data "asha".data [] "a@x.in".data "111".data).1 =
      RegOutcome.ok (pyUpper "ab12cd34".data) ∧
    register_patient
        (register_patient [] "ab12cd34".data "asha".data [] "a@x.in".data "111".data).2
        "ffffffff".data "vikram".data [] "a@x.in".data "222".data =
      (RegOutcome.duplicateError,
       (register_patient [] "ab12cd34".data "asha".data [] "a@x.in".data "111".data).2) ∧
    (register_patient [] "ab12cd34".data "asha".data [] "a@x.in".data "111".data).2.length = 1 := by
  have h := duplicate_registration_rejected [] "ab12cd34".data "asha".data []
    "a@x.in".data "111".data "ffffffff".data "vikram".data [] "222".data
    (by decide) (by decide) (by decide) (by decide) (by decide)
  exact h.2 (by decide)

/-- C5 witness: a prescription for an id matching no patient fails with the
not-found outcome and leaves the store unchanged. -/
theorem rx_unknown_patient_not_found_witness :
    record_prescription
      { patients := [{ unique_id := "AB12CD34".data, first_name := "asha".data,
                       last_name := [], email := "a@x.in".data, phone := "111".data,
                       dob := none, location := none, height_cm := none,
                       diet_pref := none, gender := none }],
        doctors := [], vitals := [], prescriptions := [] }
      "Dr. Mohan".data "ZZ99ZZ99".data "2024-03-01".data "flu".data
      [{ name := "Aspirin".data, freq := "Once a day".data, timing := "After Breakfast".data }] =
      (RxOutcome.notFoundError,
       { patients := [{ unique_id := "AB12CD34".data, first_name := "asha".data,
                        last_name := [], email := "a@x.in".data, phone := "111".data,
                        dob := none, location := none, height_cm := none,
                        diet_pref := none, gender := none }],
         doctors := [], vitals := [], prescriptions := [] }) :=
  rx_unknown_patient_not_found _ _ _ _ _ _ (by decide) (by decide)

/-- C6 witness: a patient with no vitals rows gets the empty sequence. -/
theorem vitals_query_ordered_complete_witness :
    get_patient_vitals "AB12CD34".data
      [{ patient_id := "ZZ99ZZ99".data, record_date := "2024-01-01".data,
         weight_kg := some 70, bp_systolic := none, bp_diastolic := none,
         heart_rate := none, sugar_level := none }] = [] :=
  (vitals_query_ordered_complete "AB12CD34".data _).2.2 (by decide)

/-- C7 witness: referential integrity holds after a concrete trace of
register, login, vital recording and prescription recording from the empty
store. -/
theorem referential_integrity_reachable_witness :
    refIntegrity (applyOp (applyOp (applyOp (applyOp ⟨Store.init, none⟩
      (Op.opRegisterPatient "ab12cd34".data "asha".data [] "a@x.in".data "111".data))
      (Op.opLoginPatient "asha".data "ab12cd34".data))
      (Op.opRecordVital "2024-01-02".data 65 120 80 72 0))
      (Op.opRecordPrescription "Dr. Mohan".data "ab12cd34".data "2024-03-01".data
        "flu".data [{ name := "Aspirin".data, freq := "Once a day".data,
                      timing := "After Breakfast".data }])).store :=
  referential_integrity_reachable _
    (Reachable.step _ _ (Reachable.step _ _ (Reachable.step _ _
      (Reachable.step _ _ Reachable.init))))

/-- C8 witness: registering with fresh contact details on the empty table
succeeds and stores exactly the one uppercased-id row. -/
theorem register_fresh_contact_succeeds_witness :
    register_patient [] "ab12cd34".data "asha".data [] "a@x.in".data "111".data =
      (RegOutcome.ok "AB12CD34".data,
       [{ unique_id := "AB12CD34".data, first_name := "asha".data,
          last_name := [], email := "a@x.in".data, phone := "111".data,
          dob := none, location := none, height_cm := none,
          diet_pref := none, gender := none }]) := by
  have h := register_fresh_contact_succeeds [] "ab12cd34".data "asha".data []
    "a@x.in".data "111".data (by decide) (by decide) (by decide)
    (by decide) (by decide) (by decide)
  exact h.1.trans (by decide)

/-- C10 witness: canonical uppercase ids and the exact prescription join
hold after a concrete register-then-prescribe trace from the empty store. -/
theorem canonical_ids_exact_joins_witness :
    (∀ p ∈ (applyOp (applyOp ⟨Store.init, none⟩
        (Op.opRegisterPatient "ef56ab12".data "meera".data [] "m@x.in".data "333".data))
        (Op.opRecordPrescription "Dr. Mohan".data "ef56ab12".data "2024-03-01".data
          "flu".data [{ name := "Aspirin".data, freq := "Once a day".data,
                        timing := "After Breakfast".data }])).store.patients,
      pyUpper p.unique_id = p.unique_id) ∧
    (∀ r ∈ (applyOp (applyOp ⟨Store.init, none⟩
        (Op.opRegisterPatient "ef56ab12".data "meera".data [] "m@x.in".data "333".data))
        (Op.opRecordPrescription "Dr. Mohan".data "ef56ab12".data "2024-03-01".data
          "flu".data [{ name := "Aspirin".data, freq := "Once a day".data,
                        timing := "After Breakfast".data }])).store.prescriptions,
      ∃ p ∈ (applyOp (applyOp ⟨Store.init, none⟩
        (Op.opRegisterPatient "ef56ab12".data "meera".data [] "m@x.in".data "333".data))
        (Op.opRecordPrescription "Dr. Mohan".data "ef56ab12".data "2024-03-01".data
          "flu".data [{ name := "Aspirin".data, freq := "Once a day".data,
                        timing := "After Breakfast".data }])).store.patients,
        r.patient_id = p.unique_id ∧
        r.toRow ∈ get_patient_prescriptions p.unique_id
          (applyOp (applyOp ⟨Store.init, none⟩
            (Op.opRegisterPatient "ef56ab12".data "meera".data [] "m@x.in".data "333".data))
            (Op.opRecordPrescription "Dr. Mohan".data "ef56ab12".data "2024-03-01".data
              "flu".data [{ name := "Aspirin".data, freq := "Once a day".data,
                            timing := "After Breakfast".data }])).store.prescriptions) := by
  have h := canonical_ids_exact_joins
    (applyOp (applyOp ⟨Store.init, none⟩
      (Op.opRegisterPatient "ef56ab12".data "meera".data [] "m@x.in".data "333".data))
      (Op.opRecordPrescription "Dr. Mohan".data "ef56ab12".data "2024-03-01".data
        "flu".data [{ name := "Aspirin".data, freq := "Once a day".data,
                      timing := "After Breakfast".data }]))
    (Reachable.step _ _ (Reachable.step _ _ Reachable.init))
  exact ⟨h.1, h.2.1⟩
